import Mathlib

/-!
Verification of the feature-extraction pipeline of
`extract_features.py` and of the settings/data reader of
`train_models_CNN_LSTM_CNNLSTM.py`.

The Python source is shallowly embedded: pure computations become Lean
functions, the control flow of `main` becomes a function from an
explicit environment (the answers of the outside world: user input,
results of the per-split extraction calls, the randomness of the index
shuffle) to an outcome value.  Functions of the repository that are
only called here but whose module is not part of the sources
(`organize_speech_data`, `feature_extraction_functions`) are modelled
from the specification; their doc comments say so explicitly.
-/

/-- A Python runtime value, as far as the identity tests of the source
distinguish values: `main` tests `dom_freq is not False`, an object
identity test against the boolean singleton `False`, so `None`, `0`,
strings and `True` all differ from it. -/
inductive PyVal where
  | bool (b : Bool)
  | none
  | int (n : Int)
  | str (s : String)
deriving DecidableEq

/-- Default resolution of `num_filters` in `main` (extract_features.py,
lines 21-24): `None` becomes 201 when `feature_type == "stft"` and 40
otherwise; an explicit value is kept unchanged. -/
def resolve_num_filters (feature_type : String) : Option Nat → Nat
  | Option.none => if feature_type = "stft" then 201 else 40
  | Option.some n => n

/-- Default resolution of `timesteps` in `main` (lines 25-26). -/
def resolve_timesteps : Option Nat → Nat
  | Option.none => 5
  | Option.some n => n

/-- Default resolution of `context_window` in `main` (lines 27-28). -/
def resolve_context_window : Option Nat → Nat
  | Option.none => 5
  | Option.some n => n

/-- `num_feature_columns` as computed in `main` (lines 29-34): the
filter count, tripled when `delta` is set, plus one extra column unless
`dom_freq` is the literal `False` (`dom_freq is not False`). -/
def num_feature_columns (num_filters : Nat) (delta : Bool) (dom_freq : PyVal) : Nat :=
  (if delta then num_filters * 3 else num_filters) +
    (if dom_freq ≠ PyVal.bool false then 1 else 0)

/-- `frame_width` as computed in `main` of extract_features.py
(line 38): one central frame plus a context window on each side. -/
def frame_width (context_window : Nat) : Nat :=
  context_window * 2 + 1

/-- `frame_width` as recomputed in `main` of
train_models_CNN_LSTM_CNNLSTM.py (line 75). -/
def train_frame_width (context_window : Nat) : Nat :=
  context_window * 2 + 1

/-- C2: for every call to `main` the number of feature columns equals
`num_filters × (3 if delta else 1) + (1 if dominant-frequency else 0)`;
mfcc/fbank with 40 filters, deltas and no dominant frequency give 120,
stft without deltas gives 201 with the default filter count, and
turning on the dominant frequency adds exactly one column. -/
theorem claim_C2_feature_columns :
    (∀ (nf : Nat) (delta df : Bool),
      num_feature_columns nf delta (PyVal.bool df) =
        nf * (if delta then 3 else 1) + (if df then 1 else 0)) ∧
    (∀ ft : String, ft = "mfcc" ∨ ft = "fbank" →
      num_feature_columns (resolve_num_filters ft (some 40)) true (PyVal.bool false) = 120) ∧
    num_feature_columns (resolve_num_filters "stft" none) false (PyVal.bool false) = 201 ∧
    (∀ (nf : Nat) (delta : Bool),
      num_feature_columns nf delta (PyVal.bool true) =
        num_feature_columns nf delta (PyVal.bool false) + 1) := by
  refine ⟨?_, ?_, by decide, ?_⟩
  · intro nf delta df
    cases delta <;> cases df <;> simp [num_feature_columns]
  · intro ft _h
    simp [resolve_num_filters, num_feature_columns]
  · intro nf delta
    cases delta <;> simp [num_feature_columns]

/-- Closed instance of C2 at `feature_type = "mfcc"`. -/
theorem claim_C2_feature_columns_witness :
    num_feature_columns (resolve_num_filters "mfcc" (some 40)) true (PyVal.bool false) = 120 :=
  claim_C2_feature_columns.2.1 "mfcc" (Or.inl rfl)

/-- C7: with `num_filters` omitted the default is 201 for stft and 40
for every other feature type; omitted `timesteps` and `context_window`
both default to 5. -/
theorem claim_C7_defaults :
    resolve_num_filters "stft" none = 201 ∧
    (∀ ft : String, ft ≠ "stft" → resolve_num_filters ft none = 40) ∧
    resolve_timesteps none = 5 ∧
    resolve_context_window none = 5 := by
  refine ⟨rfl, ?_, rfl, rfl⟩
  intro ft h
  simp [resolve_num_filters, h]

/-- Closed instance of C7 at `feature_type = "mfcc"`. -/
theorem claim_C7_defaults_witness :
    resolve_num_filters "mfcc" none = 40 :=
  claim_C7_defaults.2.1 "mfcc" (by decide)

/-- C9: the dominant-frequency test is an identity test against the
literal `False`: every other value, `None` and `0` included, adds
exactly one feature column, and only the literal `False` leaves the
count unchanged. -/
theorem claim_C9_dom_freq_identity :
    (∀ (nf : Nat) (delta : Bool) (v : PyVal), v ≠ PyVal.bool false →
      num_feature_columns nf delta v = (if delta then nf * 3 else nf) + 1) ∧
    (∀ (nf : Nat) (delta : Bool),
      num_feature_columns nf delta (PyVal.bool false) = (if delta then nf * 3 else nf)) ∧
    num_feature_columns 40 false PyVal.none = 41 ∧
    num_feature_columns 40 false (PyVal.int 0) = 41 := by
  refine ⟨?_, ?_, by decide, by decide⟩
  · intro nf delta v hv
    simp [num_feature_columns, hv]
  · intro nf delta
    simp [num_feature_columns]

/-- Closed instance of C9 at `v = None`. -/
theorem claim_C9_dom_freq_identity_witness :
    num_feature_columns 40 false PyVal.none = (if false then 40 * 3 else 40) + 1 :=
  claim_C9_dom_freq_identity.1 40 false PyVal.none (by decide)

/-- Decimal digits of a natural number, most significant first, with an
explicit fuel argument so that evaluation stays kernel-reducible.  This
is the digit sequence Python's `str` prints for a nonnegative int. -/
def natDigitsAux : Nat → Nat → List Nat
  | 0, _ => []
  | Nat.succ fuel, n =>
    if n < 10 then [n] else natDigitsAux fuel (n / 10) ++ [n % 10]

/-- Decimal digits of `n`, most significant first. -/
def natDigits (n : Nat) : List Nat :=
  natDigitsAux (n + 1) n

/-- The character of one decimal digit. -/
def digitChar (d : Nat) : Char :=
  Char.ofNat (48 + d)

/-- The digit of one decimal character. -/
def digitVal (c : Char) : Nat :=
  c.toNat - 48

/-- Python's `str` on a nonnegative int: its decimal numeral. -/
def natStr (n : Nat) : String :=
  String.mk ((natDigits n).map digitChar)

/-- Reading a most-significant-first digit list back as a number. -/
def ofDigitsMSF (ds : List Nat) : Nat :=
  List.foldl (fun a d => a * 10 + d) 0 ds

theorem natDigitsAux_ne_nil : ∀ fuel n, n < fuel → natDigitsAux fuel n ≠ [] := by
  intro fuel
  cases fuel with
  | zero => intro n h; omega
  | succ f =>
    intro n _h
    by_cases h10 : n < 10 <;> simp [natDigitsAux, h10]

theorem natDigitsAux_lt_ten : ∀ fuel n, n < fuel → ∀ d ∈ natDigitsAux fuel n, d < 10 := by
  intro fuel
  induction fuel with
  | zero => intro n h; omega
  | succ f ih =>
    intro n h d hd
    by_cases h10 : n < 10
    · simp [natDigitsAux, h10] at hd
      omega
    · have hdiv : n / 10 < f := by omega
      simp [natDigitsAux, h10] at hd
      rcases hd with hd | hd
      · exact ih (n / 10) hdiv d hd
      · omega

theorem ofDigitsMSF_natDigitsAux : ∀ fuel n, n < fuel →
    ofDigitsMSF (natDigitsAux fuel n) = n := by
  intro fuel
  induction fuel with
  | zero => intro n h; omega
  | succ f ih =>
    intro n h
    by_cases h10 : n < 10
    · simp [natDigitsAux, h10, ofDigitsMSF]
    · have hdiv : n / 10 < f := by omega
      have hrec := ih (n / 10) hdiv
      simp only [natDigitsAux, h10, if_false]
      unfold ofDigitsMSF at hrec ⊢
      rw [List.foldl_append, hrec]
      simp
      omega

theorem natDigits_ne_nil (n : Nat) : natDigits n ≠ [] :=
  natDigitsAux_ne_nil (n + 1) n (Nat.lt_succ_self n)

theorem natDigits_lt_ten (n : Nat) : ∀ d ∈ natDigits n, d < 10 :=
  natDigitsAux_lt_ten (n + 1) n (Nat.lt_succ_self n)

theorem ofDigitsMSF_natDigits (n : Nat) : ofDigitsMSF (natDigits n) = n :=
  ofDigitsMSF_natDigitsAux (n + 1) n (Nat.lt_succ_self n)

theorem digitChar_isDigit (d : Nat) (h : d < 10) : (digitChar d).isDigit = true := by
  interval_cases d <;> decide

theorem digitVal_digitChar (d : Nat) (h : d < 10) : digitVal (digitChar d) = d := by
  interval_cases d <;> decide

/-- Every character of the decimal numeral of a number is a digit. -/
theorem natStr_data_digits (n : Nat) : ∀ c ∈ (natStr n).data, c.isDigit = true := by
  intro c hc
  simp only [natStr, List.mem_map] at hc
  obtain ⟨d, hd, rfl⟩ := hc
  exact digitChar_isDigit d (natDigits_lt_ten n d hd)

/-- The decimal numeral of a number is never the empty string. -/
theorem natStr_data_ne_nil (n : Nat) : (natStr n).data ≠ [] := by
  simp [natStr, natDigits_ne_nil n]

/-- Value of a decimal character string, most significant first. -/
def parseDigits (cs : List Char) : Nat :=
  List.foldl (fun a c => a * 10 + digitVal c) 0 cs

/-- Python's `int` applied to one of the log's values: defined on the
nonnegative decimal numerals the provenance log contains, `None`
(a raised ValueError) elsewhere. -/
def pyIntParse (s : String) : Option Nat :=
  if s.data ≠ [] ∧ s.data.all Char.isDigit then some (parseDigits s.data) else none

theorem parseDigits_natStr (n : Nat) : parseDigits (natStr n).data = n := by
  show List.foldl (fun a c => a * 10 + digitVal c) 0 ((natDigits n).map digitChar) = n
  rw [List.foldl_map]
  rw [List.foldl_ext (fun a c => a * 10 + digitVal (digitChar c)) (fun a d => a * 10 + d) 0
    (fun a d hd => by
      show a * 10 + digitVal (digitChar d) = a * 10 + d
      rw [digitVal_digitChar d (natDigits_lt_ten n d hd)])]
  exact ofDigitsMSF_natDigits n

/-- Decimal printing is injective. -/
theorem natStr_inj (m n : Nat) (h : natStr m = natStr n) : m = n := by
  have h2 := congrArg (fun s => parseDigits s.data) h
  simpa [parseDigits_natStr] using h2

/-- Round trip: `int(str(n)) = n`, the lossless string/number round
trip the provenance log relies on. -/
theorem pyIntParse_natStr (n : Nat) : pyIntParse (natStr n) = some n := by
  unfold pyIntParse
  rw [if_pos]
  · rw [parseDigits_natStr]
  · refine ⟨natStr_data_ne_nil n, ?_⟩
    rw [List.all_eq_true]
    exact fun c hc => natStr_data_digits n c hc

/-- The settings dict built in `main` of extract_features.py
(line 110), with every value already rendered to the string the CSV
log holds: the four numeric fields consumed downstream are printed
decimals, the remaining fields are opaque rendered strings. -/
def dict_info_feature_extraction
    (data_path limit features delta dom_freq noise vad time_stamp : String)
    (num_original num_total timesteps context_window num_classes : Nat) :
    List (String × String) :=
  [("data path", data_path), ("limit", limit), ("features", features),
   ("num original features", natStr num_original),
   ("num total features", natStr num_total),
   ("delta", delta), ("dominant frequency", dom_freq), ("noise", noise),
   ("beginning silence removal", vad),
   ("timesteps", natStr timesteps),
   ("context window", natStr context_window),
   ("num classes", natStr num_classes),
   ("time stamp", time_stamp)]

/-- Modelled from the spec: `log_extraction_settings` (module
`organize_speech_data`, absent from the sources) persists the settings
record as key→value CSV rows that are "read back verbatim by any
downstream consumer"; reading the file back therefore returns the rows
unchanged. -/
def log_extraction_settings (rows : List (String × String)) : List (String × String) :=
  rows

/-- The dict comprehension of train_models_CNN_LSTM_CNNLSTM.py
(line 64), `{rows[0]: rows[1] for rows in reader}`: a later row with
the same key overwrites an earlier one, so lookup finds the last
binding. -/
def pyDictLookup (rows : List (String × String)) (k : String) : Option String :=
  (rows.reverse.find? (fun r => r.1 == k)).map (fun r => r.2)

/-- The four conversions of train_models_CNN_LSTM_CNNLSTM.py
(lines 66-69): `int` of the dict entries for num classes, num total
features, timesteps and context window. -/
def trainer_read_settings (rows : List (String × String)) :
    Option (Nat × Nat × Nat × Nat) :=
  match pyDictLookup rows "num classes", pyDictLookup rows "num total features",
      pyDictLookup rows "timesteps", pyDictLookup rows "context window" with
  | some a, some b, some c, some d =>
    match pyIntParse a, pyIntParse b, pyIntParse c, pyIntParse d with
    | some na, some nb, some nc, some nd => some (na, nb, nc, nd)
    | _, _, _, _ => none
  | _, _, _, _ => none

/-- C3: the provenance log round-trips: the extraction run records
num classes, num total features, timesteps and context window with
exactly the values used (the resolved defaults and the computed column
count), the trainer reading the log back as strings and converting to
int recovers exactly those values, and both sides compute the same
`frame_width = 2 × context_window + 1`. -/
theorem claim_C3_provenance_round_trip :
    ∀ (data_path limit features delta dom_freq noise vad time_stamp ft : String)
      (nf_opt ts_opt cw_opt : Option Nat) (dlt : Bool) (df : PyVal) (num_classes : Nat),
      trainer_read_settings (log_extraction_settings
        (dict_info_feature_extraction data_path limit features delta dom_freq noise vad
          time_stamp
          (resolve_num_filters ft nf_opt)
          (num_feature_columns (resolve_num_filters ft nf_opt) dlt df)
          (resolve_timesteps ts_opt) (resolve_context_window cw_opt) num_classes)) =
        some (num_classes,
          num_feature_columns (resolve_num_filters ft nf_opt) dlt df,
          resolve_timesteps ts_opt, resolve_context_window cw_opt) ∧
      train_frame_width (resolve_context_window cw_opt) =
        frame_width (resolve_context_window cw_opt) := by
  intro data_path limit features delta dom_freq noise vad time_stamp ft
    nf_opt ts_opt cw_opt dlt df num_classes
  refine ⟨?_, rfl⟩
  have h1 : pyDictLookup (log_extraction_settings
      (dict_info_feature_extraction data_path limit features delta dom_freq noise vad
        time_stamp (resolve_num_filters ft nf_opt)
        (num_feature_columns (resolve_num_filters ft nf_opt) dlt df)
        (resolve_timesteps ts_opt) (resolve_context_window cw_opt) num_classes))
      "num classes" = some (natStr num_classes) := rfl
  have h2 : pyDictLookup (log_extraction_settings
      (dict_info_feature_extraction data_path limit features delta dom_freq noise vad
        time_stamp (resolve_num_filters ft nf_opt)
        (num_feature_columns (resolve_num_filters ft nf_opt) dlt df)
        (resolve_timesteps ts_opt) (resolve_context_window cw_opt) num_classes))
      "num total features" =
      some (natStr (num_feature_columns (resolve_num_filters ft nf_opt) dlt df)) := rfl
  have h3 : pyDictLookup (log_extraction_settings
      (dict_info_feature_extraction data_path limit features delta dom_freq noise vad
        time_stamp (resolve_num_filters ft nf_opt)
        (num_feature_columns (resolve_num_filters ft nf_opt) dlt df)
        (resolve_timesteps ts_opt) (resolve_context_window cw_opt) num_classes))
      "timesteps" = some (natStr (resolve_timesteps ts_opt)) := rfl
  have h4 : pyDictLookup (log_extraction_settings
      (dict_info_feature_extraction data_path limit features delta dom_freq noise vad
        time_stamp (resolve_num_filters ft nf_opt)
        (num_feature_columns (resolve_num_filters ft nf_opt) dlt df)
        (resolve_timesteps ts_opt) (resolve_context_window cw_opt) num_classes))
      "context window" = some (natStr (resolve_context_window cw_opt)) := rfl
  rw [trainer_read_settings, h1, h2, h3, h4]
  simp [pyIntParse_natStr]

theorem string_eq_of_data : ∀ a b : String, a.data = b.data → a = b := by
  intro a b h
  exact congrArg String.mk h

/-- The extractor's per-split output filenames, built in `main` of
extract_features.py (lines 88-90): for each split name i the file
`head_folder/data_i/i_features`. -/
def train_val_test_filenames (head_folder : String) : List String :=
  ["train", "val", "test"].map
    (fun i => (head_folder ++ "/data_" ++ i ++ "/") ++ (i ++ "_features"))

/-- Modelled from the spec: `save_feats2npy` (module
`feature_extraction_functions`, absent from the sources) writes the
split's accumulated array to the filename it is given, through numpy's
`np.save`, which appends the ".npy" extension. -/
def written_npy (filename : String) : String :=
  filename ++ ".npy"

/-- Training-data load path of train_models_CNN_LSTM_CNNLSTM.py
(line 116). -/
def filename_train (proj : String) : String :=
  "ml_speech_projects/" ++ proj ++ "/data_train/train_features.npy"

/-- Validation-data load path of train_models_CNN_LSTM_CNNLSTM.py
(line 119). -/
def filename_val (proj : String) : String :=
  "ml_speech_projects/" ++ proj ++ "/data_val/val_features.npy"

/-- Test-data load path of train_models_CNN_LSTM_CNNLSTM.py
(line 145). -/
def filename_test (proj : String) : String :=
  "ml_speech_projects/" ++ proj ++ "/data_test/test_features.npy"

theorem path_shift (proj B C : String) (h : B = C) :
    "./ml_speech_projects/" ++ (proj ++ B) = "./" ++ ("ml_speech_projects/" ++ (proj ++ C)) := by
  rw [h, ← String.append_assoc "./" "ml_speech_projects/" (proj ++ C)]
  have hpre : ("./" ++ "ml_speech_projects/" : String) = "./ml_speech_projects/" := by decide
  rw [hpre]

/-- C6: the three array files the extractor writes under the run folder
(at data_train/train_features, data_val/val_features and
data_test/test_features, with numpy's ".npy" suffix) are exactly the
files the training component loads: its load paths equal the written
paths, up to the extractor's explicit "./" current-directory prefix. -/
theorem claim_C6_paths_agree :
    ∀ proj : String,
      (train_val_test_filenames ("./ml_speech_projects/" ++ proj)).map written_npy =
        ["./" ++ filename_train proj, "./" ++ filename_val proj, "./" ++ filename_test proj] := by
  intro proj
  simp only [train_val_test_filenames, List.map_cons, List.map_nil, written_npy,
    filename_train, filename_val, filename_test, String.append_assoc, List.cons.injEq,
    and_true]
  exact ⟨path_shift proj _ _ (by decide), path_shift proj _ _ (by decide),
    path_shift proj _ _ (by decide)⟩

/-- The fields of `datetime.datetime.now()` consulted (or ignored) by
`get_date` of extract_features.py. -/
structure PyDateTime where
  year : Nat
  month : Nat
  day : Nat
  hour : Nat
  minute : Nat
  second : Nat
  microsecond : Nat
deriving DecidableEq

/-- `get_date` of extract_features.py (lines 14-17): the string
`"{}d{}h{}m{}s".format(time.day, time.hour, time.minute, time.second)`.
Year, month and microsecond are not part of the stamp. -/
def get_date (t : PyDateTime) : String :=
  natStr t.day ++ "d" ++ natStr t.hour ++ "h" ++ natStr t.minute ++ "m" ++
    natStr t.second ++ "s"

/-- `curr_folder` of `main` (line 46): the run's head folder name
`<feature_type>_models_<time_stamp>`. -/
def curr_folder (feature_type time_stamp : String) : String :=
  feature_type ++ "_models_" ++ time_stamp

/-- `head_folder` of `main` (lines 45-47). -/
def head_folder (feature_type time_stamp : String) : String :=
  "./ml_speech_projects/" ++ curr_folder feature_type time_stamp

/-- Splitting a concatenation at a non-digit marker: two digit blocks
followed by the same marker coincide exactly when the pieces do. -/
theorem digit_block_split : ∀ (xs ys rest1 rest2 : List Char) (c : Char),
    (∀ a ∈ xs, a.isDigit = true) → (∀ a ∈ ys, a.isDigit = true) → c.isDigit = false →
    xs ++ c :: rest1 = ys ++ c :: rest2 → xs = ys ∧ rest1 = rest2 := by
  intro xs
  induction xs with
  | nil =>
    intro ys rest1 rest2 c _hx hy hc h
    cases ys with
    | nil => simpa using h
    | cons b ys2 =>
      simp only [List.nil_append, List.cons_append, List.cons.injEq] at h
      have hb : b.isDigit = true := hy b (List.mem_cons_self b ys2)
      rw [← h.1] at hb
      rw [hc] at hb
      exact absurd hb (by decide)
  | cons a xs2 ih =>
    intro ys rest1 rest2 c hx hy hc h
    cases ys with
    | nil =>
      simp only [List.cons_append, List.nil_append, List.cons.injEq] at h
      have ha : a.isDigit = true := hx a (List.mem_cons_self a xs2)
      rw [h.1] at ha
      rw [hc] at ha
      exact absurd ha (by decide)
    | cons b ys2 =>
      simp only [List.cons_append, List.cons.injEq] at h
      obtain ⟨hab, h2⟩ := h
      have hrec := ih ys2 rest1 rest2 c
        (fun x hx2 => hx x (List.mem_cons_of_mem a hx2))
        (fun x hy2 => hy x (List.mem_cons_of_mem b hy2)) hc h2
      subst hab
      exact ⟨by rw [hrec.1], hrec.2⟩

/-- Two timestamps print the same only when day, hour, minute and
second all agree: the numerals are digit blocks, the markers d, h, m,
s are not digits, and decimal printing is injective. -/
theorem get_date_inj (t1 t2 : PyDateTime) (h : get_date t1 = get_date t2) :
    t1.day = t2.day ∧ t1.hour = t2.hour ∧ t1.minute = t2.minute ∧
      t1.second = t2.second := by
  have hdata := congrArg String.data h
  simp only [get_date, String.data_append, List.append_assoc] at hdata
  simp only [List.singleton_append, List.cons_append] at hdata
  have s1 := digit_block_split _ _ _ _ 'd' (natStr_data_digits t1.day)
    (natStr_data_digits t2.day) (by decide) hdata
  have s2 := digit_block_split _ _ _ _ 'h' (natStr_data_digits t1.hour)
    (natStr_data_digits t2.hour) (by decide) s1.2
  have s3 := digit_block_split _ _ _ _ 'm' (natStr_data_digits t1.minute)
    (natStr_data_digits t2.minute) (by decide) s2.2
  have s4 := digit_block_split _ _ _ _ 's' (natStr_data_digits t1.second)
    (natStr_data_digits t2.second) (by decide) s3.2
  refine ⟨?_, ?_, ?_, ?_⟩
  · have := congrArg parseDigits s1.1
    simpa [parseDigits_natStr] using this
  · have := congrArg parseDigits s2.1
    simpa [parseDigits_natStr] using this
  · have := congrArg parseDigits s3.1
    simpa [parseDigits_natStr] using this
  · have := congrArg parseDigits s4.1
    simpa [parseDigits_natStr] using this

/-- C8 is false as stated: two runs started at different times can
collide on the same folder name, because the stamp ignores year, month
and sub-second fields.  Here two start times one month apart yield the
same head folder name. -/
theorem claim_C8_counterexample :
    PyDateTime.mk 2020 1 5 3 4 5 0 ≠ PyDateTime.mk 2020 2 5 3 4 5 0 ∧
    curr_folder "fbank" (get_date (PyDateTime.mk 2020 1 5 3 4 5 0)) =
      curr_folder "fbank" (get_date (PyDateTime.mk 2020 2 5 3 4 5 0)) :=
  ⟨by decide, by decide⟩

/-- C8 (amended): two runs of the same feature type receive distinct
timestamped folder names exactly when their start times differ in the
(day, hour, minute, second) tuple; runs whose start times agree on
those four fields (differing only in year, month or microsecond)
collide. -/
theorem claim_C8_amended_distinct_folders :
    ∀ (ft : String) (t1 t2 : PyDateTime),
      ¬(t1.day = t2.day ∧ t1.hour = t2.hour ∧ t1.minute = t2.minute ∧
          t1.second = t2.second) →
      curr_folder ft (get_date t1) ≠ curr_folder ft (get_date t2) := by
  intro ft t1 t2 hne heq
  apply hne
  apply get_date_inj
  have hdata := congrArg String.data heq
  simp only [curr_folder, String.data_append] at hdata
  exact string_eq_of_data _ _ (List.append_cancel_left hdata)

/-- Closed instance of the amended C8: start times one second apart
give distinct folder names. -/
theorem claim_C8_amended_distinct_folders_witness :
    curr_folder "fbank" (get_date (PyDateTime.mk 2020 1 5 3 4 5 0)) ≠
      curr_folder "fbank" (get_date (PyDateTime.mk 2020 1 5 3 4 6 0)) :=
  claim_C8_amended_distinct_folders "fbank" _ _ (by decide)

/-- Modelled from the spec: `get_max_nums_train_val_test` (module
`organize_speech_data`, absent from the sources) applies the default
0.8/0.1/0.1 ratios to the per-class cap, rounding down, with the
remainder assigned to train. -/
def get_max_nums_train_val_test (cap : Nat) : Nat × Nat × Nat :=
  (cap * 8 / 10 + (cap - (cap * 8 / 10 + cap / 10 + cap / 10)), cap / 10, cap / 10)

/-- Modelled from the spec: `assign_indices_train_val_test` (module
`organize_speech_data`, absent from the sources) randomly samples
without replacement `train_n + val_n + test_n` of a class's indices and
partitions the sample into three contiguous groups of the target
sizes.  The randomness is the caller's: `pool` is the class's index
list in an arbitrary (shuffled) order. -/
def assign_indices_train_val_test (pool : List Nat) (tn vn sn : Nat) :
    List Nat × List Nat × List Nat :=
  ((pool.take (tn + vn + sn)).take tn,
   ((pool.take (tn + vn + sn)).drop tn).take vn,
   ((pool.take (tn + vn + sn)).drop tn).drop vn)

/-- Modelled from the spec: `check_4_dataset_mixing` (module
`organize_speech_data`, absent from the sources) performs the explicit
cross-split membership test — no train index in val or test, no val
index in test — and raises a fatal consistency error on a violation;
here the boolean verdict. -/
def check_4_dataset_mixing (train val test : List Nat) : Bool :=
  (train.all fun i => !(val.contains i)) &&
  (train.all fun i => !(test.contains i)) &&
  (val.all fun i => !(test.contains i))

theorem check_4_dataset_mixing_eq_true (t v s : List Nat) :
    check_4_dataset_mixing t v s = true ↔
      t.Disjoint v ∧ t.Disjoint s ∧ v.Disjoint s := by
  simp only [check_4_dataset_mixing, Bool.and_eq_true, List.all_eq_true, List.Disjoint]
  constructor
  · intro h
    refine ⟨fun a ha hav => ?_, fun a ha has => ?_, fun a ha has => ?_⟩
    · have := h.1.1 a ha
      simp at this
      exact this hav
    · have := h.1.2 a ha
      simp at this
      exact this has
    · have := h.2 a ha
      simp at this
      exact this has
  · intro h
    refine ⟨⟨fun a ha => ?_, fun a ha => ?_⟩, fun a ha => ?_⟩
    · simp
      exact fun hav => h.1 ha hav
    · simp
      exact fun has => h.2.1 ha has
    · simp
      exact fun has => h.2.2 ha has

/-- The three split index lists cut out of a duplicate-free pool are
pairwise disjoint and together no larger than the pool. -/
theorem assign_indices_disjoint (pool : List Nat) (tn vn sn : Nat)
    (h : pool.Nodup) :
    (assign_indices_train_val_test pool tn vn sn).1.Disjoint
        (assign_indices_train_val_test pool tn vn sn).2.1 ∧
    (assign_indices_train_val_test pool tn vn sn).1.Disjoint
        (assign_indices_train_val_test pool tn vn sn).2.2 ∧
    (assign_indices_train_val_test pool tn vn sn).2.1.Disjoint
        (assign_indices_train_val_test pool tn vn sn).2.2 ∧
    (assign_indices_train_val_test pool tn vn sn).1.length +
        (assign_indices_train_val_test pool tn vn sn).2.1.length +
        (assign_indices_train_val_test pool tn vn sn).2.2.length ≤ pool.length := by
  simp only [assign_indices_train_val_test]
  have hs_nodup : (pool.take (tn + vn + sn)).Nodup :=
    (List.take_sublist _ _).nodup h
  have decomp1 := List.take_append_drop tn (pool.take (tn + vn + sn))
  have decomp2 := List.take_append_drop vn ((pool.take (tn + vn + sn)).drop tn)
  have h1 : ((pool.take (tn + vn + sn)).take tn ++
      (pool.take (tn + vn + sn)).drop tn).Nodup := by rw [decomp1]; exact hs_nodup
  rw [List.nodup_append] at h1
  have h2 : (((pool.take (tn + vn + sn)).drop tn).take vn ++
      ((pool.take (tn + vn + sn)).drop tn).drop vn).Nodup := by
    rw [decomp2]; exact h1.2.1
  rw [List.nodup_append] at h2
  refine ⟨?_, ?_, h2.2.2, ?_⟩
  · intro a ha hav
    exact h1.2.2 ha (by rw [← decomp2]; exact List.mem_append_left _ hav)
  · intro a ha has
    exact h1.2.2 ha (by rw [← decomp2]; exact List.mem_append_right _ has)
  · have e1 : ((pool.take (tn + vn + sn)).take tn).length +
        ((pool.take (tn + vn + sn)).drop tn).length =
        (pool.take (tn + vn + sn)).length := by
      rw [← List.length_append, decomp1]
    have e2 : (((pool.take (tn + vn + sn)).drop tn).take vn).length +
        (((pool.take (tn + vn + sn)).drop tn).drop vn).length =
        ((pool.take (tn + vn + sn)).drop tn).length := by
      rw [← List.length_append, decomp2]
    have e3 : (pool.take (tn + vn + sn)).length ≤ pool.length := by
      rw [List.length_take]; omega
    omega

/-- Python's `str.lower`, on the ASCII range the prompt answers use. -/
def py_lower (s : String) : String :=
  String.mk (s.data.map Char.toLower)

/-- The label-confirmation test of `main` (extract_features.py,
line 72): the answer is accepted when its lowercase form contains the
character y or equals the empty string; otherwise `ExitApp` is
raised. -/
def accepts_labels (s : String) : Bool :=
  (py_lower s).data.contains 'y' || (py_lower s == "")

/-- The typed exceptions of the run (feature_extraction_scripts.errors
plus the failures named by the spec). -/
inductive PyExc where
  | exitApp
  | indexError
  | splitMixing
  | featureExtractionFail
deriving DecidableEq

/-- How a call of `main` ends: the process is terminated by
`sys.exit()`, an exception escapes `main`, or `main` returns a
boolean. -/
inductive Outcome where
  | sysExit
  | uncaught (e : PyExc)
  | returns (b : Bool)
deriving DecidableEq

/-- The effects of the outside world on one run of `main`: the user's
answer at the label prompt, whether collecting and organizing the data
raises an IndexError, the per-class cap, the per-class shuffled index
pools (the randomness of the split assigner), and the success reports
of the three per-split extraction passes. -/
structure Env where
  user_input : String
  index_error : Bool
  class_cap : Nat
  pools : List (List Nat)
  split_results : Bool × Bool × Bool
deriving DecidableEq

/-- The dataset-mixing verdict computed inside the first try block of
`main` (lines 127-133): the split assignment of every class, checked
by `check_4_dataset_mixing`. -/
def dataset_mixing_ok (env : Env) : Bool :=
  env.pools.all fun pool =>
    check_4_dataset_mixing
      (assign_indices_train_val_test pool
        (get_max_nums_train_val_test env.class_cap).1
        (get_max_nums_train_val_test env.class_cap).2.1
        (get_max_nums_train_val_test env.class_cap).2.2).1
      (assign_indices_train_val_test pool
        (get_max_nums_train_val_test env.class_cap).1
        (get_max_nums_train_val_test env.class_cap).2.1
        (get_max_nums_train_val_test env.class_cap).2.2).2.1
      (assign_indices_train_val_test pool
        (get_max_nums_train_val_test env.class_cap).1
        (get_max_nums_train_val_test env.class_cap).2.1
        (get_max_nums_train_val_test env.class_cap).2.2).2.2

/-- The `for i in range(3)` extraction loop of `main` (lines 149-158):
each round calls `save_feats2npy`; a failed round raises
`FeatureExtractionFail`.  Returns the raised exception, if any, and the
number of rounds that ran. -/
def split_rounds (r : Bool × Bool × Bool) : Option PyExc × Nat :=
  if r.1 = false then (some PyExc.featureExtractionFail, 1)
  else if r.2.1 = false then (some PyExc.featureExtractionFail, 2)
  else if r.2.2 = false then (some PyExc.featureExtractionFail, 3)
  else (none, 3)

/-- The second try block of `main` (lines 147-173): a clean loop
returns True; `FeatureExtractionFail` is caught and `main` returns
False; nothing else is raised there. -/
def feature_extraction_phase (r : Bool × Bool × Bool) : Outcome × Nat :=
  match split_rounds r with
  | (Option.none, k) => (Outcome.returns true, k)
  | (Option.some PyExc.featureExtractionFail, k) => (Outcome.returns false, k)
  | (Option.some e, k) => (Outcome.uncaught e, k)

/-- `main` of extract_features.py as one run: a rejected label prompt
raises `ExitApp`, caught at line 134 and turned into `sys.exit()`; an
IndexError while organizing the data is caught at line 136 and also
ends in `sys.exit()`; a split-mixing violation raises out of `main`
uncaught; otherwise the three extraction rounds run.  The second
component counts the extraction rounds that were started. -/
def main_run (env : Env) : Outcome × Nat :=
  if accepts_labels env.user_input = false then (Outcome.sysExit, 0)
  else if env.index_error = true then (Outcome.sysExit, 0)
  else if dataset_mixing_ok env = false then (Outcome.uncaught PyExc.splitMixing, 0)
  else feature_extraction_phase env.split_results

theorem feature_extraction_phase_returns (r : Bool × Bool × Bool) :
    (feature_extraction_phase r).1 = Outcome.returns (r.1 && r.2.1 && r.2.2) := by
  obtain ⟨r1, r2, r3⟩ := r
  cases r1 <;> cases r2 <;> cases r3 <;> decide

theorem feature_extraction_phase_spec (r : Bool × Bool × Bool) :
    ((feature_extraction_phase r).1 = Outcome.returns true ↔
      r.1 = true ∧ r.2.1 = true ∧ r.2.2 = true) ∧
    ((r.1 && r.2.1 && r.2.2) = false →
      (split_rounds r).1 = some PyExc.featureExtractionFail ∧
        (feature_extraction_phase r).1 = Outcome.returns false) := by
  obtain ⟨r1, r2, r3⟩ := r
  cases r1 <;> cases r2 <;> cases r3 <;> decide

/-- C1: for every class the three split index lists are pairwise
disjoint and their sizes sum to at most the class's available sample
count; `check_4_dataset_mixing` necessarily passes on the assignment of
a duplicate-free pool, the check runs before any feature extraction,
and a detected overlap aborts the run with zero extraction rounds
started, so no dataset output is produced. -/
theorem claim_C1_split_invariant :
    (∀ (pool : List Nat) (tn vn sn : Nat), pool.Nodup →
      (assign_indices_train_val_test pool tn vn sn).1.Disjoint
          (assign_indices_train_val_test pool tn vn sn).2.1 ∧
      (assign_indices_train_val_test pool tn vn sn).1.Disjoint
          (assign_indices_train_val_test pool tn vn sn).2.2 ∧
      (assign_indices_train_val_test pool tn vn sn).2.1.Disjoint
          (assign_indices_train_val_test pool tn vn sn).2.2 ∧
      (assign_indices_train_val_test pool tn vn sn).1.length +
          (assign_indices_train_val_test pool tn vn sn).2.1.length +
          (assign_indices_train_val_test pool tn vn sn).2.2.length ≤ pool.length ∧
      check_4_dataset_mixing (assign_indices_train_val_test pool tn vn sn).1
          (assign_indices_train_val_test pool tn vn sn).2.1
          (assign_indices_train_val_test pool tn vn sn).2.2 = true) ∧
    (∀ env : Env, accepts_labels env.user_input = true → env.index_error = false →
      dataset_mixing_ok env = false →
      main_run env = (Outcome.uncaught PyExc.splitMixing, 0)) := by
  constructor
  · intro pool tn vn sn h
    obtain ⟨d1, d2, d3, hlen⟩ := assign_indices_disjoint pool tn vn sn h
    exact ⟨d1, d2, d3, hlen, (check_4_dataset_mixing_eq_true _ _ _).mpr ⟨d1, d2, d3⟩⟩
  · intro env h1 h2 h3
    simp [main_run, h1, h2, h3]

/-- Closed instance of C1: the assignment of a concrete duplicate-free
pool passes the mixing check, and a run whose pool smuggles a duplicate
aborts uncaught with zero extraction rounds. -/
theorem claim_C1_split_invariant_witness :
    check_4_dataset_mixing (assign_indices_train_val_test [0, 1, 2, 3] 2 1 1).1
        (assign_indices_train_val_test [0, 1, 2, 3] 2 1 1).2.1
        (assign_indices_train_val_test [0, 1, 2, 3] 2 1 1).2.2 = true ∧
    main_run (Env.mk "y" false 10 [[0, 1, 2, 3, 4, 5, 6, 7, 0, 9]] (true, true, true)) =
      (Outcome.uncaught PyExc.splitMixing, 0) :=
  ⟨(claim_C1_split_invariant.1 [0, 1, 2, 3] 2 1 1 (by decide)).2.2.2.2,
   claim_C1_split_invariant.2 _ (by decide) (by decide) (by decide)⟩

/-- C4: once the run reaches the extraction loop, `main` returns True
exactly when all three per-split extraction passes report success, and
on any failed pass `FeatureExtractionFail` is raised inside the loop,
caught, and `main` returns False without the exception escaping. -/
theorem claim_C4_extraction_result :
    ∀ env : Env, accepts_labels env.user_input = true → env.index_error = false →
      dataset_mixing_ok env = true →
      ((main_run env).1 = Outcome.returns true ↔
        env.split_results.1 = true ∧ env.split_results.2.1 = true ∧
          env.split_results.2.2 = true) ∧
      ((env.split_results.1 && env.split_results.2.1 && env.split_results.2.2) = false →
        (split_rounds env.split_results).1 = some PyExc.featureExtractionFail ∧
          (main_run env).1 = Outcome.returns false) := by
  intro env h1 h2 h3
  have hspec := feature_extraction_phase_spec env.split_results
  simpa [main_run, h1, h2, h3] using hspec

/-- Closed instance of C4: a failing validation pass makes the run
return False. -/
theorem claim_C4_extraction_result_witness :
    (main_run (Env.mk "y" false 10 [[0, 1, 2, 3, 4, 5, 6, 7, 8, 9]] (true, false, true))).1 =
      Outcome.returns false :=
  ((claim_C4_extraction_result _ (by decide) (by decide) (by decide)).2 (by decide)).2

/-- C5 is false as stated: the core does terminate the process itself —
a declined label confirmation is caught as `ExitApp` and answered with
`sys.exit()` (extract_features.py lines 134-135). -/
theorem claim_C5_counterexample :
    ¬ (∀ env : Env, (main_run env).1 ≠ Outcome.sysExit) := by
  intro h
  exact h (Env.mk "n" false 0 [] (true, true, true)) (by decide)

/-- C5 (amended): `main` terminates the process through `sys.exit()`
exactly when the user declines the label confirmation or an IndexError
is raised while collecting and organizing the data; past those two
points it reports the outcome to the caller, returning a boolean from
the extraction loop (the split-mixing failure propagates as a typed
exception). -/
theorem claim_C5_amended_exit_behavior :
    ∀ env : Env,
      ((main_run env).1 = Outcome.sysExit ↔
        (accepts_labels env.user_input = false ∨ env.index_error = true)) ∧
      (accepts_labels env.user_input = true → env.index_error = false →
        dataset_mixing_ok env = true →
        (main_run env).1 = Outcome.returns
          (env.split_results.1 && env.split_results.2.1 && env.split_results.2.2)) := by
  intro env
  constructor
  · by_cases ha : accepts_labels env.user_input = false
    · simp [main_run, ha]
    · have ha2 : accepts_labels env.user_input = true := by
        revert ha; cases accepts_labels env.user_input <;> simp
      by_cases hi : env.index_error = true
      · simp [main_run, ha2, hi]
      · have hi2 : env.index_error = false := by
          revert hi; cases env.index_error <;> simp
        by_cases hm : dataset_mixing_ok env = false
        · simp [main_run, ha2, hi2, hm]
        · simp [main_run, ha2, hi2, hm, feature_extraction_phase_returns]
  · intro h1 h2 h3
    simp [main_run, h1, h2, h3, feature_extraction_phase_returns]

/-- Closed instance of the amended C5: a declined prompt exits the
process, a clean run returns True. -/
theorem claim_C5_amended_exit_behavior_witness :
    (main_run (Env.mk "q" false 0 [] (true, true, true))).1 = Outcome.sysExit ∧
    (main_run (Env.mk "y" false 10 [[0, 1, 2, 3, 4, 5, 6, 7, 8, 9]] (true, true, true))).1 =
      Outcome.returns true :=
  ⟨(claim_C5_amended_exit_behavior _).1.mpr (Or.inl (by decide)),
   by
    have h := (claim_C5_amended_exit_behavior
      (Env.mk "y" false 10 [[0, 1, 2, 3, 4, 5, 6, 7, 8, 9]] (true, true, true))).2
      (by decide) (by decide) (by decide)
    simpa using h⟩

/-- C10: the label confirmation accepts an answer exactly when its
lowercased form contains the character y or the answer is empty; any
other answer ends the run through `sys.exit` with no extraction round
started; in particular the negative answer nyet counts as
confirmation. -/
theorem claim_C10_label_confirmation :
    (∀ s : String, accepts_labels s = true ↔
      ('y' ∈ (py_lower s).data ∨ s = "")) ∧
    accepts_labels "nyet" = true ∧
    (∀ env : Env, accepts_labels env.user_input = false →
      main_run env = (Outcome.sysExit, 0)) := by
  refine ⟨?_, by decide, ?_⟩
  · intro s
    rw [accepts_labels, Bool.or_eq_true]
    constructor
    · intro h
      rcases h with h1 | h1
      · exact Or.inl (by simpa using h1)
      · right
        have h2 : py_lower s = "" := by simpa using h1
        have h4 : s.data = [] := by
          have h3 := congrArg String.data h2
          simpa [py_lower] using h3
        exact string_eq_of_data s "" h4
    · intro h
      rcases h with h1 | h1
      · exact Or.inl (by simpa using h1)
      · subst h1
        exact Or.inr (by decide)
  · intro env h
    simp [main_run, h]

/-- Closed instance of C10: YES is accepted, no ends the run. -/
theorem claim_C10_label_confirmation_witness :
    accepts_labels "YES" = true ∧
    main_run (Env.mk "no" false 0 [] (true, true, true)) = (Outcome.sysExit, 0) :=
  ⟨(claim_C10_label_confirmation.1 "YES").mpr (Or.inl (by decide)),
   claim_C10_label_confirmation.2.2 _ (by decide)⟩
